import Mathlib

/-!
Verification of the realtime voice/text conversational gateway
(`humanBG`), a shallow embedding of the feature-complete realtime-session
source (the Gemini/Vertex variant).  Pure data is modelled directly; the
side effects of the session (client WebSocket messages, model calls,
Firestore writes, outbound n8n calls) are reified as an ordered event
list returned by each embedded operation together with the updated
session state.  Opaque external collaborators (the streaming model
client, `Date` parsing, `Intl` formatting, HMAC, JSON parsing) appear as
function parameters or as outcome data passed to the embedded operations,
mirroring the spec's "specified only at their interface boundary" rule.
-/

namespace HumanBG

/-- Client-bound WebSocket messages emitted with `safeSend` in the source. -/
inductive ClientMsg where
  | info (message : String)
  | errorMsg (message : String)
  | transcriptMsg (text : String) (isFinal : Bool)
  | assistantDelta (delta : String)
  | assistantFinal (text : String)
  | toolExecutionStart (toolName actionType : String)
  | toolExecutionEnd (toolName : String) (success : Bool)
  | scheduleAppointmentAction (url : String)
  | bookingCompleted (startTime : Option String) (title : String)
  deriving Repr, DecidableEq

/-- A model-requested function call as it appears in a stream part.  The
arguments are kept in their serialized (JSON string) form, which is also
what the per-turn dedupe key is built from. -/
structure FunctionCall where
  name : String
  args : String
  thoughtSignature : Option String := none
  deriving Repr, DecidableEq

/-- Reified side effects of the session, in the order the source performs
them.  `modelStreamCall` is `geminiChat.sendMessageStream`, `modelMessage`
is `geminiChat.sendMessage` (history injection), `dispatchTool` is the
deferred hand-off to `handleFunctionCall` at stream end, `persistTranscript`
is the whole-document Firestore transcript overwrite, `persistTxnAppend` is
the transactional read-modify-write append used for corrections,
`superviseReport` is the fire-and-forget supervision webhook POST,
`idempotencyWrite` is the transactional `SentActions` guard write, and
`n8nCall` is the outbound tool webhook POST. -/
inductive SessionEvent where
  | sendClient (m : ClientMsg)
  | modelStreamCall (input : String)
  | modelMessage (input : String)
  | dispatchTool (fc : FunctionCall) (hadTextBeforeTool : Bool) (thoughtSignature : Option String)
  | persistTranscript (transcript : String)
  | persistTxnAppend (appended : String)
  | superviseReport (botResponse : Option String)
  | idempotencyWrite (key : String)
  | n8nCall (url orden dedupeKey : String)
  deriving Repr, DecidableEq

/-- One `part` of a Gemini stream chunk candidate: optional text, an
optional function call, and the thought-signature fields of thinking
models. -/
structure Part where
  text : Option String := none
  functionCall : Option FunctionCall := none
  thought : Bool := false
  thoughtSignature : Option String := none
  deriving Repr, DecidableEq

/-- A candidate of a stream chunk; `none` models a candidate whose
`content.parts` is missing or not an array (skipped by the source). -/
abbrev Candidate := Option (List Part)

/-- A stream chunk is iterated as its list of candidates. -/
abbrev Chunk := List Candidate

/-- Outcome of one `sendMessageStream` call on the opaque model client:
either the stream of chunks it yields, or the exception it throws. -/
inductive ModelOutcome where
  | stream (chunks : List Chunk)
  | failure (msg : String)
  deriving Repr, DecidableEq

/-- Per-connection mutable state captured by the `/realtime-ws` handler
closures, restricted to the fields the turn orchestration reads or
writes. -/
structure Session where
  geminiChatStarted : Bool := true
  isPausedForUserAction : Bool := false
  isSupervised : Bool := false
  isCorrecting : Bool := false
  conversationId : Option String := none
  conversationCreated : Bool := false
  fullConversationTranscript : String := ""
  currentUserTranscript : String := ""
  currentUserInputSource : String := "voice"
  lastFinalNorm : String := ""
  internalContextNotes : List String := []
  currentThoughtSignature : Option String := none
  lastBookingIdProcessed : Option String := none
  lastBookingStartISO : Option String := none
  bookingAnnouncedTs : Int := 0
  wsOpen : Bool := true
  deriving Repr, DecidableEq

/-- JS `String.prototype.trim`, implemented by structural recursion over
the character list so that concrete witnesses evaluate inside the
kernel. -/
def jsTrim (s : String) : String :=
  ⟨((s.data.dropWhile Char.isWhitespace).reverse.dropWhile Char.isWhitespace).reverse⟩

/-- JS `String.prototype.toLowerCase`, implemented by structural
recursion over the character list. -/
def jsToLower (s : String) : String :=
  ⟨s.data.map Char.toLower⟩

/-- Mirrors `buildModelInputWithContext`: prepend the bounded internal
context notes, if any, to the user text. -/
def buildModelInputWithContext (st : Session) (userText : String) : String :=
  if st.internalContextNotes = [] then userText
  else
    "[Contexto interno del sistema: acciones recientes]\n"
      ++ String.intercalate "\n" (st.internalContextNotes.map (fun n => "- " ++ n))
      ++ "\n\n" ++ userText

/-- Accumulator of the stream-consumption loop in `getGeminiResponse`:
the local variables `fullText`, `toolAlreadyHandledThisTurn`,
`pendingFunctionCall`, `pendingThoughtSignature`, plus the client messages
already forwarded. -/
structure StreamAcc where
  fullText : String := ""
  toolAlreadyHandledThisTurn : Bool := false
  pendingFunctionCall : Option FunctionCall := none
  pendingThoughtSignature : Option String := none
  events : List SessionEvent := []
  deriving Repr, DecidableEq

/-- First statement block of the part loop: forward a non-empty text
fragment to the client as an `assistant_delta` and accumulate it. -/
def consumeTextStep (acc : StreamAcc) (p : Part) : StreamAcc :=
  match p.text with
  | some t =>
      if t.length > 0 then
        { acc with fullText := acc.fullText ++ t
                   events := acc.events ++ [.sendClient (.assistantDelta t)] }
      else acc
  | none => acc

/-- Second statement block: capture (never execute) the first function
call of the turn; later calls in the same stream are ignored. -/
def consumeCallStep (acc : StreamAcc) (p : Part) : StreamAcc :=
  match p.functionCall with
  | some fc =>
      if acc.toolAlreadyHandledThisTurn then acc
      else { acc with toolAlreadyHandledThisTurn := true, pendingFunctionCall := some fc }
  | none => acc

/-- Third statement block: capture the thought signature of a thought
part. -/
def consumeThoughtStep (acc : StreamAcc) (p : Part) : StreamAcc :=
  if p.thought then
    match p.thoughtSignature with
    | some ts => { acc with pendingThoughtSignature := some ts }
    | none => acc
  else acc

/-- Fourth statement block: a thought signature carried directly on the
function call also wins. -/
def consumeCallSigStep (acc : StreamAcc) (p : Part) : StreamAcc :=
  match p.functionCall with
  | some fc =>
      match fc.thoughtSignature with
      | some ts => { acc with pendingThoughtSignature := some ts }
      | none => acc
  | none => acc

/-- Processing of one stream part, in source order: forward a non-empty
text fragment as an `assistant_delta`, capture (never execute) the first
function call of the turn, and track the latest thought signature. -/
def consumePart (acc : StreamAcc) (p : Part) : StreamAcc :=
  consumeCallSigStep (consumeThoughtStep (consumeCallStep (consumeTextStep acc p) p) p) p

/-- Candidates without valid `content.parts` are skipped. -/
def consumeCandidate (acc : StreamAcc) (cand : Candidate) : StreamAcc :=
  match cand with
  | none => acc
  | some parts => parts.foldl consumePart acc

/-- Iterate the candidates of one chunk. -/
def consumeChunk (acc : StreamAcc) (chunk : Chunk) : StreamAcc :=
  chunk.foldl consumeCandidate acc

/-- Iterate the chunks of the whole stream. -/
def consumeStream (acc : StreamAcc) (chunks : List Chunk) : StreamAcc :=
  chunks.foldl consumeChunk acc

/-- Mirrors `commitAssistantFinal`: trim, bail out on blank text, send
`assistant_final`, persist the appended transcript when the conversation
document exists, optionally fire the supervision report (suppressed while
`isCorrecting`), and optionally clear the user-turn flags. -/
def commitAssistantFinal (st : Session) (text : String)
    (supervise : Bool := true) (clearUserTurn : Bool := true) :
    List SessionEvent × Session :=
  let final := jsTrim text
  if final = "" then ([], st)
  else
    let newTranscript := st.fullConversationTranscript ++ "\nAI-BOT: " ++ final
    let persistEv :=
      if st.conversationId.isSome ∧ st.conversationCreated then
        [SessionEvent.persistTranscript newTranscript]
      else []
    let supEv :=
      if supervise ∧ st.isSupervised ∧ ¬st.isCorrecting then
        [SessionEvent.superviseReport (some final)]
      else []
    let st₁ := { st with fullConversationTranscript := newTranscript }
    let st₂ :=
      if clearUserTurn then { st₁ with currentUserTranscript := "", isCorrecting := false }
      else st₁
    ([SessionEvent.sendClient (.assistantFinal final)] ++ persistEv ++ supEv, st₂)

/-- Stream-end handling of `getGeminiResponse` after the consumption
loop: with a captured function call, first flush any accumulated text as a
non-supervised final, then dispatch the call; otherwise close the turn
with a supervised final. -/
def finishStream (st : Session) (modelInput : String) (acc : StreamAcc) :
    List SessionEvent × Session :=
  match acc.pendingFunctionCall with
  | some fc =>
      let hadTextBeforeTool : Bool := jsTrim acc.fullText != ""
      let (commitEv, st₁) :=
        if hadTextBeforeTool then commitAssistantFinal st acc.fullText false false
        else ([], st)
      let st₂ := { st₁ with currentThoughtSignature := acc.pendingThoughtSignature }
      (SessionEvent.modelStreamCall modelInput :: acc.events ++ commitEv
         ++ [SessionEvent.dispatchTool fc hadTextBeforeTool acc.pendingThoughtSignature],
       st₂)
  | none =>
      let st₁ := { st with currentThoughtSignature := none }
      let (commitEv, st₂) := commitAssistantFinal st₁ acc.fullText true true
      (SessionEvent.modelStreamCall modelInput :: acc.events ++ commitEv, st₂)

/-- Mirrors `getGeminiResponse`, the Dialogue Engine entry point: return
silently when no chat session exists; silently discard the input while
`isPausedForUserAction`; otherwise stream the model's answer, forwarding
text deltas immediately and deferring a captured function call to stream
end.  A model exception is reported to the client as a typed error event. -/
def getGeminiResponse (st : Session) (userText : String) (outcome : ModelOutcome) :
    List SessionEvent × Session :=
  if ¬st.geminiChatStarted then ([], st)
  else if st.isPausedForUserAction then ([], st)
  else
    let modelInput := buildModelInputWithContext st (if userText = "" then " " else userText)
    match outcome with
    | .failure msg =>
        ([SessionEvent.modelStreamCall modelInput,
          SessionEvent.sendClient (.errorMsg ("Error en la API de Gemini: " ++ msg))], st)
    | .stream chunks =>
        finishStream st modelInput (consumeStream {} chunks)

/-- Parts of a candidate, with invalid candidates contributing nothing. -/
def candParts (cand : Candidate) : List Part :=
  match cand with
  | none => []
  | some ps => ps

/-- All stream parts in iteration order (chunks, then candidates, then
parts). -/
def streamParts (chunks : List Chunk) : List Part :=
  chunks.flatMap (fun ch => ch.flatMap candParts)

/-- First function call appearing in a list of parts. -/
def firstFunctionCall (ps : List Part) : Option FunctionCall :=
  (ps.filterMap Part.functionCall).head?

/-- The `assistant_delta` message forwarded for one part, if any. -/
def deltaEvt (p : Part) : Option SessionEvent :=
  match p.text with
  | some t =>
      if t.length > 0 then some (SessionEvent.sendClient (.assistantDelta t)) else none
  | none => none

/-- The `assistant_delta` messages forwarded while consuming the parts. -/
def streamDeltaEvents (ps : List Part) : List SessionEvent :=
  ps.filterMap deltaEvt

/-- Function calls dispatched to tool handling within an event list. -/
def dispatchedCalls (evs : List SessionEvent) : List FunctionCall :=
  evs.filterMap
    (fun e =>
      match e with
      | .dispatchTool fc _ _ => some fc
      | _ => none)

/-- Predicate selecting supervision-report events. -/
def isSuperviseEvt : SessionEvent → Bool
  | .superviseReport _ => true
  | _ => false

/-- Number of supervision reports in an event list. -/
def superviseCount (evs : List SessionEvent) : Nat :=
  evs.countP isSuperviseEvt

/-- Predicate selecting committed `assistant_final` client messages. -/
def isFinalEvt : SessionEvent → Bool
  | .sendClient (.assistantFinal _) => true
  | _ => false

/-- Number of committed `assistant_final` utterances in an event list. -/
def finalCount (evs : List SessionEvent) : Nat :=
  evs.countP isFinalEvt

/-- Predicate selecting model calls (streaming or history-injecting). -/
def isModelCallEvt : SessionEvent → Bool
  | .modelStreamCall _ => true
  | .modelMessage _ => true
  | _ => false

/-- Number of model calls (streaming or history-injecting) in an event
list. -/
def modelCallCount (evs : List SessionEvent) : Nat :=
  evs.countP isModelCallEvt

/-- Client messages contained in an event list. -/
def clientMessages (evs : List SessionEvent) : List ClientMsg :=
  evs.filterMap
    (fun e =>
      match e with
      | .sendClient m => some m
      | _ => none)

/-! ## Per-turn tool-call dedupe (`handleFunctionCall`, lines 894-900 and 1111-1116) -/

/-- Dedupe key of a captured function call, from the tool name and the
serialized arguments. -/
def toolCallKey (name args : String) : String := name ++ "::" ++ args

/-- One model-emitted call reaching `handleFunctionCall` within a turn,
with the flag of whether its registered handler throws. -/
structure TurnCall where
  name : String
  args : String
  handlerThrows : Bool := false
  deriving Repr, DecidableEq

/-- Dedupe behaviour of one turn of `handleFunctionCall`, given the calls
in nested emission order: the head call is the outermost invocation; each
later call is the one the model emits inside the engine turn that the
previous executed call's confirmation triggered.  An invocation whose key
is already in `seenToolCalls` returns before executing (its `finally`
still clears the set, and no confirmation turn follows, so the chain
stops); a throwing handler is caught, its follow-up stream forwards text
only, and the chain also stops; every return clears the set in `finally`,
the outermost invocation returning last.  The result is the number of
handler executions and the dedupe set left for the next turn. -/
def runCallChain (seen : List String) : List TurnCall → Nat × List String
  | [] => (0, seen)
  | c :: rest =>
      let key := toolCallKey c.name c.args
      if key ∈ seen then (0, [])
      else if c.handlerThrows then (1, [])
      else
        let r := runCallChain (key :: seen) rest
        (r.1 + 1, [])

/-! ## The external-side-effect tool `ejecutar_orden_n8n` (lines 226-306) -/

/-- Meta identifiers handed to a tool handler invocation. -/
structure N8nMeta where
  responseId : Option String := none
  toolCallId : Option String := none
  deriving Repr, DecidableEq

/-- Connection context captured by `buildToolHandlers`' `getContext`
closure. -/
structure ToolContext where
  conversationId : Option String := none
  botId : Option String := none
  fullConversation : String := ""
  deriving Repr, DecidableEq

/-- Free-form tool handler result object (`status` plus the payload
fields the source uses). -/
structure ToolResult where
  status : String
  message : Option String := none
  httpStatus : Option Nat := none
  response : Option String := none
  deriving Repr, DecidableEq

/-- Dedupe prologue of one `handleFunctionCall` invocation (lines
894-900), exposing the value the invocation returns to its caller.
Every `return` in `handleFunctionCall` is bare and the async function
ends without a value, so the invocation always resolves with JS
`undefined` (`none` here) — in particular the duplicate-suppressed early
return yields no result object, not the first invocation's result and
not the `SentActions` layer's duplicate-suppressed marker, which this
branch never reaches.  The components are (returned value, whether the
registered handler is reached, `seenToolCalls` after the check/mark);
the later `finally` clearing of the set is the part modelled by
`runCallChain`. -/
def handleFunctionCallInvoke (seen : List String) (name args : String) :
    Option ToolResult × Bool × List String :=
  let key := toolCallKey name args
  if key ∈ seen then (none, false, seen)
  else (none, true, key :: seen)

/-- Outcome of the outbound n8n `fetch`: a response (ok flag, HTTP status,
body) or a thrown error. -/
inductive FetchOutcome where
  | response (ok : Bool) (status : Nat) (body : String)
  | failure (msg : String)
  deriving Repr, DecidableEq

/-- Idempotency key of `ejecutar_orden_n8n`, derived from conversation,
bot, response and call identifiers with the source's fallback tokens. -/
def n8nDedupeKey (ctx : ToolContext) (meta : N8nMeta) : String :=
  ctx.conversationId.getD "no-conv" ++ "::" ++ ctx.botId.getD "no-bot" ++ "::"
    ++ meta.responseId.getD "no-resp" ++ "::" ++ meta.toolCallId.getD "no-call"

/-- Mirrors the `ejecutar_orden_n8n` handler: validate the order and the
conversation id, run the transactional `SentActions` check-and-write
(whose own failure is logged and non-blocking), short-circuit with a
duplicate-suppressed success when the key already exists, and otherwise
POST the order to the n8n webhook.  `store` is the set of keys present in
the `SentActions` collection; the returned event list keeps the effect
order (guard write before external call). -/
def ejecutarOrdenN8n (n8nWebhookUrl : String) (store : List String)
    (ctx : ToolContext) (orden : Option String) (meta : N8nMeta)
    (txnFails : Bool) (ext : FetchOutcome) :
    ToolResult × List String × List SessionEvent :=
  match orden with
  | none => ({ status := "error", message := some "Falta argumento «orden» (string)" }, store, [])
  | some o =>
      if o = "" then
        ({ status := "error", message := some "Falta argumento «orden» (string)" }, store, [])
      else
        match ctx.conversationId with
        | none =>
            ({ status := "error",
               message := some "Error interno: no se pudo encontrar el ID de la conversación." },
             store, [])
        | some _ =>
            let dedupeKey := n8nDedupeKey ctx meta
            let (alreadySent, store₁, txnEv) :=
              if txnFails then (false, store, ([] : List SessionEvent))
              else if dedupeKey ∈ store then (true, store, [])
              else (false, dedupeKey :: store, [SessionEvent.idempotencyWrite dedupeKey])
            if alreadySent then
              ({ status := "success", httpStatus := some 200,
                 response := some "Duplicate suppressed (idempotent)" }, store₁, txnEv)
            else
              let callEv := txnEv ++ [SessionEvent.n8nCall n8nWebhookUrl o dedupeKey]
              match ext with
              | .failure msg => ({ status := "error", message := some msg }, store₁, callEv)
              | .response ok status body =>
                  ({ status := if ok then "success" else "error",
                     httpStatus := some status, response := some body }, store₁, callEv)

/-! ## Supervisor corrections (`applyCorrection`, lines 1257-1310) -/

/-- Correction instruction injected into the model history (the
`finalCorrectionPrompt` template applied to the supervisor's message). -/
def correctionPrompt (correctionMessage : String) : String :=
  "INSTRUCCIÓN DE CORRECCIÓN URGENTE:\n"
    ++ "Tu respuesta anterior contenía un error que ha sido detectado por tu sistema de supervisión interno.\n"
    ++ "Tu tarea AHORA es generar una nueva respuesta al usuario donde hagas lo siguiente, en este orden:\n"
    ++ "1. Discúlpate amablemente por la confusión o el error en tu mensaje anterior. Puedes mencionar que tu sistema lo ha detectado para ser transparente.\n"
    ++ "2. Proporciona la información correcta o realiza la acción correcta basándote en la siguiente directiva de tu supervisor: \"" ++ correctionMessage ++ "\"\n"
    ++ "3. Continúa la conversación de forma natural después de haber corregido el error.\n"
    ++ "4. MUY IMPORTANTE: Todo lo anterior es solo para respuestas equivocadas y corregidas por el supervisor: Si el error corresponde a una ejecución incorrecta de una herramienta, no digas que estás corrigiendo nada, simplemente indica que estás en proceso de realizar la acción y vuelve a ejecutarla correctamente según las indicaciones del supervisor."

/-- Mirrors `applyCorrection`: ignore corrections without a conversation
id; append the supervisor turn to the transcript (persisted with a
transactional append), set the mid-correction flag, inject the correction
prompt into the model history, and trigger a normal Dialogue Engine turn
with empty input, whose final commit clears the flag again. -/
def applyCorrection (st : Session) (correctionMessage : String)
    (outcome : ModelOutcome) : List SessionEvent × Session :=
  match st.conversationId with
  | none => ([], st)
  | some _ =>
      let supervisorTurnString := "\nSUPERVISOR: " ++ correctionMessage
      let st₁ := { st with
        fullConversationTranscript := st.fullConversationTranscript ++ supervisorTurnString }
      let st₂ := { st₁ with isCorrecting := true }
      let (gev, st₃) := getGeminiResponse st₂ "" outcome
      (SessionEvent.persistTxnAppend supervisorTurnString
         :: SessionEvent.modelMessage (correctionPrompt correctionMessage) :: gev,
       st₃)

/-! ## Pause/Resume Coordinator (lines 1626-1716 and 1730-1803) -/

/-- Attendee entry of a booking payload. -/
structure Attendee where
  name : Option String := none
  email : Option String := none
  timeZone : Option String := none
  deriving Repr, DecidableEq

/-- Fields of the webhook booking payload (`eventDetails`) that
`resumeWithBookingData` reads; `none` stands for an absent or falsy JS
value. -/
structure EventDetails where
  id : Option String := none
  uid : Option String := none
  bookingId : Option String := none
  bookingNestedId : Option String := none
  startTime : Option String := none
  startNestedTime : Option String := none
  endTime : Option String := none
  endNestedTime : Option String := none
  title : Option String := none
  eventTypeTitle : Option String := none
  attendees : List Attendee := []
  name : Option String := none
  email : Option String := none
  timeZone : Option String := none
  deriving Repr, DecidableEq

/-- Booking identifier extraction chain
`eventDetails?.id || eventDetails?.uid || eventDetails?.bookingId || eventDetails?.booking?.id`. -/
def bookingIdOf (e : EventDetails) : Option String :=
  match e.id with
  | some v => some v
  | none =>
      match e.uid with
      | some v => some v
      | none =>
          match e.bookingId with
          | some v => some v
          | none => e.bookingNestedId

/-- Start time extraction `eventDetails?.startTime || eventDetails?.start?.time`. -/
def rawStartISOOf (e : EventDetails) : Option String :=
  match e.startTime with
  | some v => some v
  | none => e.startNestedTime

/-- Title extraction `eventDetails?.title || eventDetails?.eventType?.title || "Tu cita"`. -/
def titleOf (e : EventDetails) : String :=
  match e.title with
  | some v => v
  | none =>
      match e.eventTypeTitle with
      | some v => v
      | none => "Tu cita"

/-- Narrated confirmation instruction built by `resumeWithBookingData`
(with `fechaLegible` already formatted, or `none` when no start time). -/
def bookingSystemText (title : String) (fechaLegible : Option String) : String :=
  "INSTRUCCIÓN: El usuario acaba de agendar una cita con éxito."
    ++ (match fechaLegible with
        | some f => " Los detalles son: \"" ++ title ++ "\" para el " ++ f ++ "."
        | none => "")
    ++ "\n1) Confirma verbalmente la cita"
    ++ (match fechaLegible with
        | some _ => " mencionando día y hora"
        | none => "")
    ++ ".\n2) Indica que recibirá un email del sistema con el enlace a Google Meet para la videoconferencia y que le permite añadir la cita a su calendario.\n3) Pregunta si necesita algo más."

/-- Mirrors the `resumeWithBookingData` capability registered in the
connection map: dedupe by booking id when present, else by the
five-minute start-time window combined with the ten-second announcement
window; notify the client first (when the socket is open), clear the
pause flag before talking to the model, inject the confirmation
instruction, run the narration turn, and finally record the booking for
future dedupe.  `dateMs` is the runtime's ISO-date-to-epoch-milliseconds
parse and `fmt` its `Intl` Europe/Madrid formatter; `now` is `Date.now()`;
`outcome` is the narration turn's model stream. -/
def resumeWithBookingData (dateMs : String → Int) (fmt : String → String)
    (now : Int) (st : Session) (e : EventDetails) (outcome : ModelOutcome) :
    List SessionEvent × Session :=
  let bookingId := bookingIdOf e
  let startISO := rawStartISOOf e
  let nearWindowMs : Int := 5 * 60 * 1000
  let antiDupMs : Int := 10 * 1000
  let dupById : Bool :=
    match bookingId, st.lastBookingIdProcessed with
    | some b, some l => b == l
    | _, _ => false
  let dupByWindow : Bool :=
    bookingId.isNone &&
      match startISO, st.lastBookingStartISO with
      | some s, some ls =>
          decide (|dateMs s - dateMs ls| ≤ nearWindowMs)
            && decide (now - st.bookingAnnouncedTs < antiDupMs)
      | _, _ => false
  if dupById then ([], st)
  else if dupByWindow then ([], st)
  else
    let notifyEv :=
      if st.wsOpen then
        [SessionEvent.sendClient (.bookingCompleted startISO (titleOf e))]
      else []
    let st₁ := { st with isPausedForUserAction := false }
    let fechaLegible := startISO.map fmt
    let systemText := bookingSystemText (titleOf e) fechaLegible
    let (gev, st₂) :=
      getGeminiResponse st₁ "Ok, entendido. Procede a confirmar la cita al usuario." outcome
    let st₃ := { st₂ with
      lastBookingIdProcessed :=
        match bookingId with
        | some b => some b
        | none => st₂.lastBookingIdProcessed
      lastBookingStartISO :=
        match startISO with
        | some s => some s
        | none => st₂.lastBookingStartISO
      bookingAnnouncedTs := now }
    (notifyEv ++ [SessionEvent.modelMessage systemText] ++ gev, st₃)

/-- Appointment data attached to a client `user_action_completed`
message. -/
structure AppointmentData where
  startTime : Option String := none
  startNestedTime : Option String := none
  eventName : Option String := none
  title : Option String := none
  deriving Repr, DecidableEq

/-- Client `user_action_completed` message body. -/
structure UserActionMsg where
  details : Option String := none
  appointmentData : Option AppointmentData := none
  deriving Repr, DecidableEq

/-- Start time of the client-reported appointment
(`msg.appointmentData?.startTime || msg.appointmentData?.start?.time`). -/
def apptStartOf (m : UserActionMsg) : Option String :=
  match m.appointmentData with
  | none => none
  | some a =>
      match a.startTime with
      | some v => some v
      | none => a.startNestedTime

/-- Narration instruction of the client fallback path when the user did
book (with the locale-formatted date when available). -/
def userActionBookedText (title : String) (fechaLegible : Option String) : String :=
  match fechaLegible with
  | some f =>
      "INSTRUCCIÓN: El usuario acaba de agendar una cita con éxito. Detalles: \"" ++ title
        ++ "\" para el " ++ f
        ++ ".\n1) Confirma verbalmente la cita mencionando día y hora.\n2) Indica que recibirá un email con los detalles.\n3) Pregunta si necesita algo más."
  | none =>
      "INSTRUCCIÓN: El usuario acaba de agendar una cita con éxito.\n1) Confirma verbalmente la cita.\n2) Indica que recibirá un email con los detalles.\n3) Pregunta si necesita algo más."

/-- Narration instruction of the client fallback path when the user
closed the scheduling window without booking. -/
def userActionClosedText (details : Option String) : String :=
  "[EVENTO DEL SISTEMA: El frontend acaba de informar que el usuario CERRÓ la ventana de agendamiento SIN seleccionar ninguna cita. El mensaje del frontend fue: \""
    ++ details.getD "Usuario cerró sin agendar."
    ++ "\"]\n\nCONTEXTO: El usuario tenía abierta la ventana para agendar una cita pero la cerró sin elegir ningún horario. Esto puede ser porque:\n- Cambió de opinión\n- No encontró un horario que le convenga\n- Fue un error y quiere volver a intentarlo\n\nTU RESPUESTA DEBE:\n1) Reconocer amablemente que cerró la ventana (sin juzgar)\n2) Ofrecer que si quiere volver a ver los horarios, solo tiene que pedírtelo\n3) Dejar claro que no hay problema si prefiere hacerlo en otro momento\n4) Preguntar en qué más puedes ayudar\n\nEJEMPLO: \"Veo que cerraste la ventana de agendado. Si fue un error o quieres volver a ver los horarios disponibles, solo dímelo. Si prefieres agendar en otro momento, no hay ningún problema. ¿Hay algo más en lo que pueda ayudarte?\"\n\n⚠️ IMPORTANTE: NO llames a ninguna herramienta en esta respuesta. Solo responde con texto."

/-- Mirrors the `user_action_completed` WebSocket case: when the pause
flag is already clear the message is ignored entirely (the webhook path
has priority); otherwise clear the pause, decide between the booked and
the closed-without-booking narration, inject it into the model history
and trigger the narration turn.  `fmt` is the runtime's
`toLocaleString('es-ES', ...)` formatter. -/
def userActionCompleted (fmt : String → String) (st : Session)
    (msg : UserActionMsg) (outcome : ModelOutcome) :
    List SessionEvent × Session :=
  if ¬st.isPausedForUserAction then ([], st)
  else
    let st₁ := { st with isPausedForUserAction := false }
    let userClosedWithoutBooking :=
      msg.details = some "Usuario cerró sin agendar." ∨ apptStartOf msg = none
    let systemText :=
      if ¬userClosedWithoutBooking ∧ msg.appointmentData.isSome then
        let startISO := apptStartOf msg
        let title :=
          match msg.appointmentData with
          | some a =>
              (match a.eventName with
               | some v => v
               | none => a.title.getD "Tu cita")
          | none => "Tu cita"
        userActionBookedText title (startISO.map fmt)
      else userActionClosedText msg.details
    let (gev, st₂) :=
      getGeminiResponse st₁ "Responde al usuario según las instrucciones anteriores." outcome
    (SessionEvent.modelMessage systemText :: gev, st₂)

/-! ## The booking webhook endpoint (`POST /webhook/booking-completed`, lines 1909-2034) -/

/-- Shared webhook secret constant of the source (non-empty, so the
signature check is active). -/
def calcomWebhookSecret : String := "otro_secreto_muy_largo_y_seguro_que_inventes"

/-- Removal of the first occurrence of `pat` within `s`, by structural
recursion on the character list. -/
def removeFirstOcc (s pat : List Char) : List Char :=
  match s with
  | [] => []
  | c :: rest =>
      if pat.isPrefixOf (c :: rest) then (c :: rest).drop pat.length
      else c :: removeFirstOcc rest pat

/-- JS `String.prototype.replace` with the string pattern `"sha256="` and
an empty replacement: drop the first occurrence only. -/
def replaceFirst (s pat : String) : String :=
  ⟨removeFirstOcc s.data pat.data⟩

/-- Functional content of the source's length-guarded
`crypto.timingSafeEqual` comparison: equal lengths and equal bytes (the
constant-time evaluation strategy itself is not observable in a
functional model). -/
def ctEq (a b : String) : Bool :=
  a.length == b.length && a == b

/-- Parsed webhook body fields the endpoint reads.  The three conversation
id sources mirror `meta.convoId`, `responses?.convoId?.value` and the
array-shaped `responses.find(...)` lookup. -/
structure CalPayload where
  triggerEvent : String
  metaConvoId : Option String := none
  responsesConvoIdValue : Option String := none
  responsesArrayConvoId : Option String := none
  details : EventDetails := {}
  deriving Repr, DecidableEq

/-- Conversation id extraction chain of the webhook endpoint. -/
def extractConvoId (p : CalPayload) : Option String :=
  match p.metaConvoId with
  | some v => some v
  | none =>
      match p.responsesConvoIdValue with
      | some v => some v
      | none => p.responsesArrayConvoId

/-- One inbound webhook request: the `x-cal-signature-256` header and the
raw body. -/
structure CalWebhookReq where
  sigHeader : Option String := none
  body : String := ""
  deriving Repr, DecidableEq

/-- Mirrors the `POST /webhook/booking-completed` handler's response
status: 400 without a signature header, 401 when the length-guarded
constant-time comparison of the HMAC hex digest fails, 500 when the raw
body is not valid JSON (`JSON.parse` throws into the outer catch), 200
for non-`BOOKING_CREATED` events, 400 when no conversation id is found,
200 when a live registry entry resumes the session, and otherwise 200
after persisting the pending event or 500 when that write fails.
`hmacHex` is the runtime's HMAC-SHA256 hex digest, `parse` its JSON
parser, `hasConn` the registry lookup, and `resumeThrows`/`persistFails`
the failure modes of the two fallback steps. -/
def bookingWebhookStatus (hmacHex : String → String → String)
    (parse : String → Option CalPayload) (hasConn : String → Bool)
    (resumeThrows : Bool) (persistFails : Bool) (req : CalWebhookReq) : Nat :=
  match req.sigHeader with
  | none => 400
  | some sig =>
      let generatedSignature := hmacHex calcomWebhookSecret req.body
      let receivedSignature := replaceFirst sig "sha256="
      if ¬(ctEq generatedSignature receivedSignature = true) then 401
      else
        match parse req.body with
        | none => 500
        | some payload =>
            if payload.triggerEvent ≠ "BOOKING_CREATED" then 200
            else
              match extractConvoId payload with
              | none => 400
              | some cid =>
                  if hasConn cid ∧ ¬resumeThrows then 200
                  else if persistFails then 500
                  else 200

/-! ## User input ingestion while paused (`onSpeechData` and `conversation.item.create`) -/

/-- One speech-recognition data event (`results[0].alternatives[0]`). -/
structure SpeechData where
  transcript : String := ""
  isFinal : Bool := false
  deriving Repr, DecidableEq

/-- Mirrors `onSpeechData`: forward every non-empty transcript to the
client; on a final transcript, normalize it, suppress echoes of the last
final, append the user turn to the transcript, persist it when the
conversation document exists, and hand the text to the Dialogue Engine
(which drops it while paused). -/
def onSpeechData (st : Session) (d : SpeechData) (outcome : ModelOutcome) :
    List SessionEvent × Session :=
  let transcriptEv :=
    if d.transcript ≠ "" then
      [SessionEvent.sendClient (.transcriptMsg d.transcript d.isFinal)]
    else []
  if d.isFinal then
    let norm := jsToLower (jsTrim d.transcript)
    if norm ≠ "" ∧ norm ≠ st.lastFinalNorm then
      let newTranscript := st.fullConversationTranscript ++ "\nUSUARIO (por voz): " ++ norm
      let st₁ := { st with
        lastFinalNorm := norm
        currentUserTranscript := norm
        currentUserInputSource := "voice"
        fullConversationTranscript := newTranscript }
      let persistEv :=
        if st₁.conversationId.isSome ∧ st₁.conversationCreated then
          [SessionEvent.persistTranscript newTranscript]
        else []
      let (gev, st₂) := getGeminiResponse st₁ norm outcome
      (transcriptEv ++ persistEv ++ gev, st₂)
    else (transcriptEv, st)
  else (transcriptEv, st)

/-- Mirrors the `conversation.item.create` case for a typed
`input_text` item: record the source, append the user turn to the
transcript, persist it immediately, and hand the prefixed text to the
Dialogue Engine (which drops it while paused). -/
def handleTextMessage (st : Session) (originalUserText : String)
    (outcome : ModelOutcome) : List SessionEvent × Session :=
  let newTranscript :=
    st.fullConversationTranscript ++ "\nUSUARIO (con texto): " ++ originalUserText
  let st₁ := { st with
    currentUserTranscript := originalUserText
    currentUserInputSource := "text"
    fullConversationTranscript := newTranscript }
  let persistEv :=
    if st₁.conversationId.isSome ∧ st₁.conversationCreated then
      [SessionEvent.persistTranscript newTranscript]
    else []
  let prefixedText := "(Mensaje Escrito) " ++ originalUserText
  let (gev, st₂) := getGeminiResponse st₁ prefixedText outcome
  (persistEv ++ gev, st₂)

/-! ## Structural lemmas about the stream-consumption loop -/

lemma consumeTextStep_toolHandled (acc : StreamAcc) (p : Part) :
    (consumeTextStep acc p).toolAlreadyHandledThisTurn = acc.toolAlreadyHandledThisTurn := by
  cases hp : p.text with
  | none => simp [consumeTextStep, hp]
  | some t =>
      simp only [consumeTextStep, hp]
      split <;> rfl

lemma consumeTextStep_pendingFC (acc : StreamAcc) (p : Part) :
    (consumeTextStep acc p).pendingFunctionCall = acc.pendingFunctionCall := by
  cases hp : p.text with
  | none => simp [consumeTextStep, hp]
  | some t =>
      simp only [consumeTextStep, hp]
      split <;> rfl

lemma consumeTextStep_fullText (acc : StreamAcc) (p : Part) :
    (consumeTextStep acc p).fullText
      = acc.fullText ++ (match p.text with
                         | some t => if t.length > 0 then t else ""
                         | none => "") := by
  cases hp : p.text with
  | none => simp [consumeTextStep, hp]
  | some t =>
      simp only [consumeTextStep, hp]
      split <;> simp

lemma consumeTextStep_events (acc : StreamAcc) (p : Part) :
    (consumeTextStep acc p).events = acc.events ++ (deltaEvt p).toList := by
  cases hp : p.text with
  | none => simp [consumeTextStep, deltaEvt, hp]
  | some t =>
      simp only [consumeTextStep, deltaEvt, hp]
      split <;> simp

lemma consumeTextStep_pendingTS (acc : StreamAcc) (p : Part) :
    (consumeTextStep acc p).pendingThoughtSignature = acc.pendingThoughtSignature := by
  cases hp : p.text with
  | none => simp [consumeTextStep, hp]
  | some t =>
      simp only [consumeTextStep, hp]
      split <;> rfl

lemma consumeCallStep_fullText (acc : StreamAcc) (p : Part) :
    (consumeCallStep acc p).fullText = acc.fullText := by
  cases hp : p.functionCall with
  | none => simp [consumeCallStep, hp]
  | some fc =>
      simp only [consumeCallStep, hp]
      split <;> rfl

lemma consumeCallStep_events (acc : StreamAcc) (p : Part) :
    (consumeCallStep acc p).events = acc.events := by
  cases hp : p.functionCall with
  | none => simp [consumeCallStep, hp]
  | some fc =>
      simp only [consumeCallStep, hp]
      split <;> rfl

lemma consumeCallStep_pendingTS (acc : StreamAcc) (p : Part) :
    (consumeCallStep acc p).pendingThoughtSignature = acc.pendingThoughtSignature := by
  cases hp : p.functionCall with
  | none => simp [consumeCallStep, hp]
  | some fc =>
      simp only [consumeCallStep, hp]
      split <;> rfl

lemma consumeCallStep_toolHandled (acc : StreamAcc) (p : Part) :
    (consumeCallStep acc p).toolAlreadyHandledThisTurn
      = (acc.toolAlreadyHandledThisTurn || p.functionCall.isSome) := by
  cases hp : p.functionCall with
  | none => simp [consumeCallStep, hp]
  | some fc =>
      simp only [consumeCallStep, hp, Option.isSome_some, Bool.or_true]
      split <;> simp_all

lemma consumeCallStep_pendingFC (acc : StreamAcc) (p : Part) :
    (consumeCallStep acc p).pendingFunctionCall
      = (if acc.toolAlreadyHandledThisTurn then acc.pendingFunctionCall
         else match p.functionCall with
              | some fc => some fc
              | none => acc.pendingFunctionCall) := by
  cases hp : p.functionCall with
  | none => simp [consumeCallStep, hp]
  | some fc =>
      simp only [consumeCallStep, hp]
      split <;> simp_all

lemma consumeThoughtStep_fullText (acc : StreamAcc) (p : Part) :
    (consumeThoughtStep acc p).fullText = acc.fullText := by
  simp only [consumeThoughtStep]
  split
  · split <;> rfl
  · rfl

lemma consumeThoughtStep_events (acc : StreamAcc) (p : Part) :
    (consumeThoughtStep acc p).events = acc.events := by
  simp only [consumeThoughtStep]
  split
  · split <;> rfl
  · rfl

lemma consumeThoughtStep_toolHandled (acc : StreamAcc) (p : Part) :
    (consumeThoughtStep acc p).toolAlreadyHandledThisTurn = acc.toolAlreadyHandledThisTurn := by
  simp only [consumeThoughtStep]
  split
  · split <;> rfl
  · rfl

lemma consumeThoughtStep_pendingFC (acc : StreamAcc) (p : Part) :
    (consumeThoughtStep acc p).pendingFunctionCall = acc.pendingFunctionCall := by
  simp only [consumeThoughtStep]
  split
  · split <;> rfl
  · rfl

lemma consumeCallSigStep_fullText (acc : StreamAcc) (p : Part) :
    (consumeCallSigStep acc p).fullText = acc.fullText := by
  simp only [consumeCallSigStep]
  split
  · split <;> rfl
  · rfl

lemma consumeCallSigStep_events (acc : StreamAcc) (p : Part) :
    (consumeCallSigStep acc p).events = acc.events := by
  simp only [consumeCallSigStep]
  split
  · split <;> rfl
  · rfl

lemma consumeCallSigStep_toolHandled (acc : StreamAcc) (p : Part) :
    (consumeCallSigStep acc p).toolAlreadyHandledThisTurn = acc.toolAlreadyHandledThisTurn := by
  simp only [consumeCallSigStep]
  split
  · split <;> rfl
  · rfl

lemma consumeCallSigStep_pendingFC (acc : StreamAcc) (p : Part) :
    (consumeCallSigStep acc p).pendingFunctionCall = acc.pendingFunctionCall := by
  simp only [consumeCallSigStep]
  split
  · split <;> rfl
  · rfl

lemma consumePart_fullText (acc : StreamAcc) (p : Part) :
    (consumePart acc p).fullText
      = acc.fullText ++ (match p.text with
                         | some t => if t.length > 0 then t else ""
                         | none => "") := by
  simp [consumePart, consumeCallSigStep_fullText, consumeThoughtStep_fullText,
    consumeCallStep_fullText, consumeTextStep_fullText]

lemma consumePart_events (acc : StreamAcc) (p : Part) :
    (consumePart acc p).events = acc.events ++ (deltaEvt p).toList := by
  simp [consumePart, consumeCallSigStep_events, consumeThoughtStep_events,
    consumeCallStep_events, consumeTextStep_events]

lemma consumePart_toolHandled (acc : StreamAcc) (p : Part) :
    (consumePart acc p).toolAlreadyHandledThisTurn
      = (acc.toolAlreadyHandledThisTurn || p.functionCall.isSome) := by
  simp [consumePart, consumeCallSigStep_toolHandled, consumeThoughtStep_toolHandled,
    consumeCallStep_toolHandled, consumeTextStep_toolHandled]

lemma consumePart_pendingFC (acc : StreamAcc) (p : Part) :
    (consumePart acc p).pendingFunctionCall
      = (if acc.toolAlreadyHandledThisTurn then acc.pendingFunctionCall
         else match p.functionCall with
              | some fc => some fc
              | none => acc.pendingFunctionCall) := by
  simp [consumePart, consumeCallSigStep_pendingFC, consumeThoughtStep_pendingFC,
    consumeCallStep_pendingFC, consumeTextStep_pendingFC, consumeTextStep_toolHandled]

lemma foldl_consumePart_toolHandled_true (ps : List Part) (acc : StreamAcc)
    (h : acc.toolAlreadyHandledThisTurn = true) :
    (ps.foldl consumePart acc).toolAlreadyHandledThisTurn = true
      ∧ (ps.foldl consumePart acc).pendingFunctionCall = acc.pendingFunctionCall := by
  induction ps generalizing acc with
  | nil => exact ⟨h, rfl⟩
  | cons p ps ih =>
      have h₁ : (consumePart acc p).toolAlreadyHandledThisTurn = true := by
        rw [consumePart_toolHandled, h]; rfl
      have h₂ : (consumePart acc p).pendingFunctionCall = acc.pendingFunctionCall := by
        rw [consumePart_pendingFC, h]; rfl
      simpa [List.foldl_cons, h₂] using ih (consumePart acc p) h₁

lemma foldl_consumePart_pendingFC (ps : List Part) (acc : StreamAcc)
    (h : acc.toolAlreadyHandledThisTurn = false) :
    (ps.foldl consumePart acc).pendingFunctionCall
      = (match (ps.filterMap Part.functionCall).head? with
         | some f => some f
         | none => acc.pendingFunctionCall) := by
  induction ps generalizing acc with
  | nil => rfl
  | cons p ps ih =>
      rw [List.foldl_cons]
      cases hp : p.functionCall with
      | none =>
          have h₁ : (consumePart acc p).toolAlreadyHandledThisTurn = false := by
            rw [consumePart_toolHandled, h, hp]; rfl
          have h₂ : (consumePart acc p).pendingFunctionCall = acc.pendingFunctionCall := by
            rw [consumePart_pendingFC, h, hp]; simp
          rw [ih _ h₁, h₂]
          simp [List.filterMap_cons, hp]
      | some f =>
          have h₁ : (consumePart acc p).toolAlreadyHandledThisTurn = true := by
            rw [consumePart_toolHandled, h, hp]; rfl
          have h₂ : (consumePart acc p).pendingFunctionCall = some f := by
            rw [consumePart_pendingFC, h, hp]; simp
          rw [(foldl_consumePart_toolHandled_true ps _ h₁).2, h₂]
          simp [List.filterMap_cons, hp]

lemma foldl_consumePart_events (ps : List Part) (acc : StreamAcc) :
    (ps.foldl consumePart acc).events = acc.events ++ streamDeltaEvents ps := by
  induction ps generalizing acc with
  | nil => simp [streamDeltaEvents]
  | cons p ps ih =>
      rw [List.foldl_cons, ih, consumePart_events]
      cases hp : p.text with
      | none => simp [streamDeltaEvents, List.filterMap_cons, deltaEvt, hp]
      | some t =>
          by_cases ht : t.length > 0 <;>
            simp [streamDeltaEvents, List.filterMap_cons, deltaEvt, hp, ht]

lemma consumeCandidate_eq (acc : StreamAcc) (cand : Candidate) :
    consumeCandidate acc cand = (candParts cand).foldl consumePart acc := by
  cases cand <;> rfl

lemma consumeChunk_eq (acc : StreamAcc) (chunk : Chunk) :
    consumeChunk acc chunk = (chunk.flatMap candParts).foldl consumePart acc := by
  induction chunk generalizing acc with
  | nil => rfl
  | cons c cs ih =>
      rw [List.flatMap_cons, List.foldl_append]
      simpa [consumeChunk, consumeCandidate_eq] using ih ((candParts c).foldl consumePart acc)

lemma consumeStream_eq (acc : StreamAcc) (chunks : List Chunk) :
    consumeStream acc chunks = (streamParts chunks).foldl consumePart acc := by
  induction chunks generalizing acc with
  | nil => rfl
  | cons c cs ih =>
      rw [streamParts, List.flatMap_cons, List.foldl_append]
      simpa [consumeStream, consumeChunk_eq, streamParts]
        using ih ((c.flatMap candParts).foldl consumePart acc)

lemma deltaEvt_shape (p : Part) (e : SessionEvent) (hp : deltaEvt p = some e) :
    ∃ d, e = SessionEvent.sendClient (.assistantDelta d) := by
  cases ht : p.text with
  | none =>
      simp only [deltaEvt, ht] at hp
      cases hp
  | some t =>
      simp only [deltaEvt, ht] at hp
      by_cases h : t.length > 0
      · rw [if_pos h] at hp
        exact ⟨t, (Option.some_inj.mp hp).symm⟩
      · rw [if_neg h] at hp; cases hp

lemma mem_streamDeltaEvents (ps : List Part) (e : SessionEvent)
    (he : e ∈ streamDeltaEvents ps) :
    ∃ d, e = SessionEvent.sendClient (.assistantDelta d) := by
  rw [streamDeltaEvents, List.mem_filterMap] at he
  obtain ⟨p, _, hp⟩ := he
  exact deltaEvt_shape p e hp

lemma streamDeltaEvents_dispatch_free (ps : List Part) :
    dispatchedCalls (streamDeltaEvents ps) = [] := by
  rw [dispatchedCalls, List.filterMap_eq_nil_iff]
  intro e he
  obtain ⟨d, rfl⟩ := mem_streamDeltaEvents ps e he
  rfl

lemma streamDeltaEvents_supervise_free (ps : List Part) :
    superviseCount (streamDeltaEvents ps) = 0 := by
  rw [superviseCount, List.countP_eq_zero]
  intro e he
  obtain ⟨d, rfl⟩ := mem_streamDeltaEvents ps e he
  simp [isSuperviseEvt]

lemma streamDeltaEvents_final_free (ps : List Part) :
    finalCount (streamDeltaEvents ps) = 0 := by
  rw [finalCount, List.countP_eq_zero]
  intro e he
  obtain ⟨d, rfl⟩ := mem_streamDeltaEvents ps e he
  simp [isFinalEvt]

/-! ## Behavioural lemmas shared by the claim theorems -/

lemma getGeminiResponse_of_paused (st : Session) (u : String) (o : ModelOutcome)
    (h : st.isPausedForUserAction = true) :
    getGeminiResponse st u o = ([], st) := by
  by_cases hc : st.geminiChatStarted <;> simp [getGeminiResponse, hc, h]

lemma consumeStream_events (chunks : List Chunk) :
    (consumeStream {} chunks).events = streamDeltaEvents (streamParts chunks) := by
  rw [consumeStream_eq]
  simpa using foldl_consumePart_events (streamParts chunks) {}

lemma consumeStream_pendingFC (chunks : List Chunk) :
    (consumeStream {} chunks).pendingFunctionCall = firstFunctionCall (streamParts chunks) := by
  rw [consumeStream_eq, firstFunctionCall]
  rw [foldl_consumePart_pendingFC (streamParts chunks) {} rfl]
  cases ((streamParts chunks).filterMap Part.functionCall).head? <;> rfl

lemma commitAssistantFinal_dispatch_free (st : Session) (t : String) (s c : Bool) :
    dispatchedCalls (commitAssistantFinal st t s c).1 = [] := by
  simp only [commitAssistantFinal]
  split
  · rfl
  · split <;> split <;> simp [dispatchedCalls]

lemma commitAssistantFinal_unsupervised (st : Session) (t : String) (c : Bool) :
    superviseCount (commitAssistantFinal st t false c).1 = 0 := by
  simp only [commitAssistantFinal]
  split
  · rfl
  · split <;> simp [superviseCount, isSuperviseEvt]

/-- Shape of a full textual turn (no function call in the stream,
non-blank accumulated text): one model call, the forwarded deltas, one
`assistant_final`, the persistence write, and the supervision report
exactly when supervised and not mid-correction; the final state clears
the user-turn flags. -/
lemma getGeminiResponse_textTurn (st : Session) (u : String) (chunks : List Chunk)
    (hchat : st.geminiChatStarted = true) (hpause : st.isPausedForUserAction = false)
    (hnofc : (consumeStream {} chunks).pendingFunctionCall = none)
    (htext : ¬(jsTrim (consumeStream {} chunks).fullText = "")) :
    getGeminiResponse st u (.stream chunks) =
      (SessionEvent.modelStreamCall (buildModelInputWithContext st (if u = "" then " " else u))
         :: streamDeltaEvents (streamParts chunks)
         ++ ([SessionEvent.sendClient (.assistantFinal (jsTrim (consumeStream {} chunks).fullText))]
             ++ (if st.conversationId.isSome ∧ st.conversationCreated then
                   [SessionEvent.persistTranscript
                     (st.fullConversationTranscript ++ "\nAI-BOT: "
                       ++ jsTrim (consumeStream {} chunks).fullText)]
                 else [])
             ++ (if st.isSupervised ∧ ¬st.isCorrecting then
                   [SessionEvent.superviseReport
                     (some (jsTrim (consumeStream {} chunks).fullText))]
                 else [])),
       { st with
           currentThoughtSignature := none
           fullConversationTranscript :=
             st.fullConversationTranscript ++ "\nAI-BOT: "
               ++ jsTrim (consumeStream {} chunks).fullText
           currentUserTranscript := ""
           isCorrecting := false }) := by
  simp only [getGeminiResponse, hchat, hpause, not_true, Bool.false_eq_true,
    if_false, ite_false]
  rw [finishStream, hnofc]
  simp only [commitAssistantFinal, if_neg htext, consumeStream_events]
  simp
  exact ⟨hchat, hpause⟩

/-- Shape of a turn whose stream carried a function call and non-blank
text: one model call, the forwarded deltas, the non-supervised interim
final with its persistence write, and only then the tool dispatch, which
is the last event of the turn. -/
lemma getGeminiResponse_fcTurn (st : Session) (u : String) (chunks : List Chunk)
    (fc : FunctionCall)
    (hchat : st.geminiChatStarted = true) (hpause : st.isPausedForUserAction = false)
    (hfc : (consumeStream {} chunks).pendingFunctionCall = some fc)
    (htext : ¬(jsTrim (consumeStream {} chunks).fullText = "")) :
    getGeminiResponse st u (.stream chunks) =
      (SessionEvent.modelStreamCall (buildModelInputWithContext st (if u = "" then " " else u))
         :: streamDeltaEvents (streamParts chunks)
         ++ ([SessionEvent.sendClient (.assistantFinal (jsTrim (consumeStream {} chunks).fullText))]
             ++ (if st.conversationId.isSome ∧ st.conversationCreated then
                   [SessionEvent.persistTranscript
                     (st.fullConversationTranscript ++ "\nAI-BOT: "
                       ++ jsTrim (consumeStream {} chunks).fullText)]
                 else []))
         ++ [SessionEvent.dispatchTool fc true (consumeStream {} chunks).pendingThoughtSignature],
       { st with
           fullConversationTranscript :=
             st.fullConversationTranscript ++ "\nAI-BOT: "
               ++ jsTrim (consumeStream {} chunks).fullText
           currentThoughtSignature := (consumeStream {} chunks).pendingThoughtSignature }) := by
  have hbool : (jsTrim (consumeStream {} chunks).fullText != "") = true := by
    simpa using htext
  simp only [getGeminiResponse, hchat, hpause, not_true, Bool.false_eq_true,
    if_false, ite_false]
  rw [finishStream, hfc]
  simp only [hbool, if_true, ite_true, commitAssistantFinal, if_neg htext,
    consumeStream_events]
  simp
  exact ⟨hchat, hpause⟩

lemma dispatchedCalls_append (l₁ l₂ : List SessionEvent) :
    dispatchedCalls (l₁ ++ l₂) = dispatchedCalls l₁ ++ dispatchedCalls l₂ := by
  simp [dispatchedCalls]

lemma dispatchedCalls_cons (e : SessionEvent) (l : List SessionEvent) :
    dispatchedCalls (e :: l) = dispatchedCalls [e] ++ dispatchedCalls l := by
  simp only [dispatchedCalls, List.filterMap_cons]
  cases hx :
      (match e with
       | SessionEvent.dispatchTool fc _ _ => some fc
       | _ => none) <;>
    simp [hx]

/-! ## Claim C1 -/

/-- C1: every input delivered to the Dialogue Engine entry point
(`getGeminiResponse`) while the session's paused-for-external-action flag
is true returns before any model call and before any client message: the
produced effect list is empty (zero model calls, zero client messages, no
error event) and the state is unchanged. -/
theorem pause_invariant_c1 (st : Session) (u : String) (o : ModelOutcome)
    (h : st.isPausedForUserAction = true) :
    getGeminiResponse st u o = ([], st)
      ∧ modelCallCount (getGeminiResponse st u o).1 = 0
      ∧ clientMessages (getGeminiResponse st u o).1 = [] := by
  have he := getGeminiResponse_of_paused st u o h
  exact ⟨he, by rw [he]; rfl, by rw [he]; rfl⟩

/-- Witness for C1 at a concrete paused session and a concrete voice
input. -/
theorem pause_invariant_c1_witness :
    getGeminiResponse { isPausedForUserAction := true } "hola"
        (.stream [[some [{ text := some "hola" }]]])
      = ([], { isPausedForUserAction := true })
    ∧ modelCallCount (getGeminiResponse { isPausedForUserAction := true } "hola"
        (.stream [[some [{ text := some "hola" }]]])).1 = 0
    ∧ clientMessages (getGeminiResponse { isPausedForUserAction := true } "hola"
        (.stream [[some [{ text := some "hola" }]]])).1 = [] :=
  pause_invariant_c1 { isPausedForUserAction := true } "hola"
    (.stream [[some [{ text := some "hola" }]]]) rfl

/-! ## Claim C2 -/

/-- C2: for every model response stream containing two or more
function-call fragments, exactly one function call — the first one
encountered — is captured and dispatched to tool handling; all later
function-call fragments of the same stream are ignored. -/
theorem single_tool_per_turn_c2 (st : Session) (u : String) (chunks : List Chunk)
    (hchat : st.geminiChatStarted = true) (hpause : st.isPausedForUserAction = false)
    (h₂ : 2 ≤ ((streamParts chunks).filterMap Part.functionCall).length) :
    ∃ fc rest, (streamParts chunks).filterMap Part.functionCall = fc :: rest
      ∧ dispatchedCalls (getGeminiResponse st u (.stream chunks)).1 = [fc] := by
  cases hl : (streamParts chunks).filterMap Part.functionCall with
  | nil => rw [hl] at h₂; simp at h₂
  | cons fc rest =>
      refine ⟨fc, rest, rfl, ?_⟩
      have hfc : (consumeStream {} chunks).pendingFunctionCall = some fc := by
        rw [consumeStream_pendingFC, firstFunctionCall, hl]; rfl
      have hcommit : ∀ b : Bool,
          dispatchedCalls
            (if b then commitAssistantFinal st (consumeStream {} chunks).fullText false false
             else ([], st)).1 = [] := by
        intro b
        cases b
        · rfl
        · exact commitAssistantFinal_dispatch_free st (consumeStream {} chunks).fullText false false
      simp only [getGeminiResponse, hchat, hpause, not_true, Bool.false_eq_true,
        if_false, ite_false]
      rw [finishStream, hfc]
      simp only
      rw [dispatchedCalls_append, dispatchedCalls_append, dispatchedCalls_cons,
        consumeStream_events, streamDeltaEvents_dispatch_free, hcommit]
      rfl

/-- Witness for C2 on a concrete stream that carries two function-call
fragments: only the first one is dispatched. -/
theorem single_tool_per_turn_c2_witness :
    ∃ fc rest,
      (streamParts
          [[some [{ functionCall := some { name := "navegar_web", args := "a" } },
                  { functionCall := some { name := "ejecutar_orden_n8n", args := "b" } }]]]).filterMap
          Part.functionCall = fc :: rest
      ∧ dispatchedCalls
          (getGeminiResponse {} "hola"
            (.stream
              [[some [{ functionCall := some { name := "navegar_web", args := "a" } },
                      { functionCall := some { name := "ejecutar_orden_n8n", args := "b" } }]]])).1
          = [fc] :=
  single_tool_per_turn_c2 {} "hola"
    [[some [{ functionCall := some { name := "navegar_web", args := "a" } },
            { functionCall := some { name := "ejecutar_orden_n8n", args := "b" } }]]]
    rfl rfl (by decide)

/-! ## Claim C5 -/

/-- C5: in a turn whose stream carries both (non-blank) text and a
function-call fragment, the call is not executed during stream
consumption; at stream end the accumulated text is first committed as a
non-supervised final (sent to the client and persisted to the transcript)
and only afterwards — as the very last event of the turn — is the
captured call dispatched to tool handling. -/
theorem text_then_tool_order_c5 (st : Session) (u : String) (chunks : List Chunk)
    (fc : FunctionCall)
    (hchat : st.geminiChatStarted = true) (hpause : st.isPausedForUserAction = false)
    (hfc : firstFunctionCall (streamParts chunks) = some fc)
    (htext : ¬(jsTrim (consumeStream {} chunks).fullText = ""))
    (hcid : st.conversationId.isSome = true) (hcc : st.conversationCreated = true) :
    getGeminiResponse st u (.stream chunks) =
      (SessionEvent.modelStreamCall (buildModelInputWithContext st (if u = "" then " " else u))
         :: streamDeltaEvents (streamParts chunks)
         ++ ([SessionEvent.sendClient
               (.assistantFinal (jsTrim (consumeStream {} chunks).fullText))]
             ++ [SessionEvent.persistTranscript
                  (st.fullConversationTranscript ++ "\nAI-BOT: "
                    ++ jsTrim (consumeStream {} chunks).fullText)])
         ++ [SessionEvent.dispatchTool fc true
              (consumeStream {} chunks).pendingThoughtSignature],
       { st with
           fullConversationTranscript :=
             st.fullConversationTranscript ++ "\nAI-BOT: "
               ++ jsTrim (consumeStream {} chunks).fullText
           currentThoughtSignature := (consumeStream {} chunks).pendingThoughtSignature })
    ∧ dispatchedCalls (streamDeltaEvents (streamParts chunks)) = []
    ∧ superviseCount (getGeminiResponse st u (.stream chunks)).1 = 0 := by
  have hfc' : (consumeStream {} chunks).pendingFunctionCall = some fc := by
    rw [consumeStream_pendingFC]; exact hfc
  have heq := getGeminiResponse_fcTurn st u chunks fc hchat hpause hfc' htext
  refine ⟨?_, streamDeltaEvents_dispatch_free _, ?_⟩
  · rw [heq]
    simp [hcid, hcc]
  · rw [heq]
    simp [superviseCount, streamDeltaEvents_supervise_free, isSuperviseEvt,
      List.countP_append, List.countP_cons, hcid, hcc]
    intro a ha
    obtain ⟨d, rfl⟩ := mem_streamDeltaEvents _ a ha
    rfl

/-- Concrete session for the C5 witness. -/
def c5State : Session := { conversationId := some "c1", conversationCreated := true }

/-- Concrete model stream for the C5 witness: a text fragment followed by
a function-call fragment. -/
def c5Stream : List Chunk :=
  [[some [{ text := some "Abro el calendario." },
          { functionCall := some { name := "abrir_modal_agendamiento", args := "a" } }]]]

/-- Concrete captured call of the C5 witness stream. -/
def c5Call : FunctionCall := { name := "abrir_modal_agendamiento", args := "a" }

/-- Witness for C5 on a concrete stream with a text fragment followed by
a function call. -/
theorem text_then_tool_order_c5_witness :
    getGeminiResponse c5State "reserva" (.stream c5Stream) =
      (SessionEvent.modelStreamCall
          (buildModelInputWithContext c5State (if "reserva" = "" then " " else "reserva"))
         :: streamDeltaEvents (streamParts c5Stream)
         ++ ([SessionEvent.sendClient
               (.assistantFinal (jsTrim (consumeStream {} c5Stream).fullText))]
             ++ [SessionEvent.persistTranscript
                  (c5State.fullConversationTranscript ++ "\nAI-BOT: "
                    ++ jsTrim (consumeStream {} c5Stream).fullText)])
         ++ [SessionEvent.dispatchTool c5Call true
              (consumeStream {} c5Stream).pendingThoughtSignature],
       { c5State with
           fullConversationTranscript :=
             c5State.fullConversationTranscript ++ "\nAI-BOT: "
               ++ jsTrim (consumeStream {} c5Stream).fullText
           currentThoughtSignature := (consumeStream {} c5Stream).pendingThoughtSignature })
    ∧ dispatchedCalls (streamDeltaEvents (streamParts c5Stream)) = []
    ∧ superviseCount (getGeminiResponse c5State "reserva" (.stream c5Stream)).1 = 0 :=
  text_then_tool_order_c5 c5State "reserva" c5Stream c5Call rfl rfl rfl (by decide) rfl rfl

/-! ## Claim C6 -/

/-- The result produced by the first invocation's handler in the C6
counterexample scenario. -/
def c6FirstResult : ToolResult :=
  { status := "success", httpStatus := some 200, response := some "ok" }

/-- The duplicate-suppressed marker result of the persistent idempotency
layer (`ejecutar_orden_n8n`, line 268) — never reached by the per-turn
set suppression. -/
def c6Marker : ToolResult :=
  { status := "success", httpStatus := some 200,
    response := some "Duplicate suppressed (idempotent)" }

/-- Counterexample to C6 as stated: invoking the same (tool name,
serialized arguments) pair twice in one turn, the second invocation is
suppressed — the handler is not reached — but it does NOT return the
first result or a duplicate-suppressed marker: the source's suppressed
branch (lines 896-899) is a bare `return;`, so the invocation resolves
with no result object at all. -/
theorem tool_dedupe_per_turn_c6_counterexample :
    (handleFunctionCallInvoke [] "ejecutar_orden_n8n" "a").2.1 = true
    ∧ (handleFunctionCallInvoke
        ((handleFunctionCallInvoke [] "ejecutar_orden_n8n" "a").2.2)
        "ejecutar_orden_n8n" "a").2.1 = false
    ∧ (handleFunctionCallInvoke
        ((handleFunctionCallInvoke [] "ejecutar_orden_n8n" "a").2.2)
        "ejecutar_orden_n8n" "a").1 = none
    ∧ (handleFunctionCallInvoke
        ((handleFunctionCallInvoke [] "ejecutar_orden_n8n" "a").2.2)
        "ejecutar_orden_n8n" "a").1 ≠ some c6FirstResult
    ∧ (handleFunctionCallInvoke
        ((handleFunctionCallInvoke [] "ejecutar_orden_n8n" "a").2.2)
        "ejecutar_orden_n8n" "a").1 ≠ some c6Marker := by
  refine ⟨rfl, rfl, rfl, by decide, by decide⟩

/-- C6 amended: within one turn, a second invocation of the same (tool
name, serialized arguments) pair is suppressed by the per-turn dedupe set
— the handler's side effect runs exactly once and the suppressed
invocation performs no external call, returning without any result
object (neither the first result nor a duplicate-suppressed marker, last
two conjuncts); the set is cleared at the end of every turn, also when
the handler throws, so the same pair re-fires in a later turn. -/
theorem tool_dedupe_per_turn_c6_amended (n a : String) (t₂ : Bool) :
    (runCallChain [] [{ name := n, args := a, handlerThrows := false },
                      { name := n, args := a, handlerThrows := t₂ }]).1 = 1
    ∧ (runCallChain [] [{ name := n, args := a, handlerThrows := false },
                        { name := n, args := a, handlerThrows := t₂ }]).2 = []
    ∧ runCallChain [] [{ name := n, args := a, handlerThrows := true }] = (1, [])
    ∧ (runCallChain
        (runCallChain [] [{ name := n, args := a, handlerThrows := false },
                          { name := n, args := a, handlerThrows := t₂ }]).2
        [{ name := n, args := a, handlerThrows := false }]).1 = 1
    ∧ handleFunctionCallInvoke
        ((handleFunctionCallInvoke [] n a).2.2) n a = (none, false, [toolCallKey n a]) := by
  simp [runCallChain, toolCallKey, handleFunctionCallInvoke]

/-! ## Claim C7 -/

/-- C7: `ejecutar_orden_n8n` checks and writes its idempotency key —
derived from the conversation, bot, response and call identifiers —
transactionally against the `SentActions` store before the external call;
an existing key short-circuits with a duplicate-suppressed success result
and no external call; a failed transactional write is non-blocking and
the external call proceeds anyway. -/
theorem n8n_idempotency_c7 (url : String) (store : List String) (ctx : ToolContext)
    (o cid : String) (meta : N8nMeta) (ext : FetchOutcome)
    (ho : o ≠ "") (hcid : ctx.conversationId = some cid) :
    (n8nDedupeKey ctx meta ∈ store →
       ejecutarOrdenN8n url store ctx (some o) meta false ext =
         ({ status := "success", httpStatus := some 200,
            response := some "Duplicate suppressed (idempotent)" }, store, []))
    ∧ (ejecutarOrdenN8n url store ctx (some o) meta true ext).2.2 =
        [SessionEvent.n8nCall url o (n8nDedupeKey ctx meta)]
    ∧ (n8nDedupeKey ctx meta ∉ store →
         (ejecutarOrdenN8n url store ctx (some o) meta false ext).2.2 =
           [SessionEvent.idempotencyWrite (n8nDedupeKey ctx meta),
            SessionEvent.n8nCall url o (n8nDedupeKey ctx meta)]
         ∧ (ejecutarOrdenN8n url store ctx (some o) meta false ext).2.1 =
             n8nDedupeKey ctx meta :: store) := by
  refine ⟨?_, ?_, ?_⟩
  · intro hmem
    simp [ejecutarOrdenN8n, hcid, ho, hmem]
  · cases ext <;> simp [ejecutarOrdenN8n, hcid, ho]
  · intro hmem
    cases ext <;> simp [ejecutarOrdenN8n, hcid, ho, hmem]

/-- Witness for C7: a key already present in `SentActions` is suppressed
with no external call, and a fresh key is written before the call. -/
theorem n8n_idempotency_c7_witness :
    ejecutarOrdenN8n "u" ["c::no-bot::no-resp::no-call"] { conversationId := some "c" }
        (some "orden") {} false (.response true 200 "ok")
      = ({ status := "success", httpStatus := some 200,
           response := some "Duplicate suppressed (idempotent)" },
         ["c::no-bot::no-resp::no-call"], [])
    ∧ (ejecutarOrdenN8n "u" [] { conversationId := some "c" }
        (some "orden") {} false (.response true 200 "ok")).2.2
      = [SessionEvent.idempotencyWrite "c::no-bot::no-resp::no-call",
         SessionEvent.n8nCall "u" "orden" "c::no-bot::no-resp::no-call"] :=
  ⟨(n8n_idempotency_c7 "u" ["c::no-bot::no-resp::no-call"] { conversationId := some "c" }
      "orden" "c" {} (.response true 200 "ok") (by decide) rfl).1 (by decide),
   ((n8n_idempotency_c7 "u" [] { conversationId := some "c" }
      "orden" "c" {} (.response true 200 "ok") (by decide) rfl).2.2 (by decide)).1⟩

/-! ## Claim C4 -/

/-- C4: a booking event whose identifier equals the last processed one is
a duplicate and performs no client or model action; an event without an
identifier is a duplicate exactly when it has a start time within five
minutes of the previously announced event's start time and the previous
announcement happened within the last ten seconds. -/
theorem booking_dedupe_c4 (dateMs : String → Int) (fmt : String → String)
    (now : Int) (st : Session) (e : EventDetails) (o : ModelOutcome) :
    (∀ b, bookingIdOf e = some b → st.lastBookingIdProcessed = some b →
       resumeWithBookingData dateMs fmt now st e o = ([], st))
    ∧ (bookingIdOf e = none →
        (resumeWithBookingData dateMs fmt now st e o = ([], st) ↔
          ∃ s ls, rawStartISOOf e = some s ∧ st.lastBookingStartISO = some ls ∧
            |dateMs s - dateMs ls| ≤ 300000 ∧ now - st.bookingAnnouncedTs < 10000)) := by
  constructor
  · intro b hb hl
    simp [resumeWithBookingData, hb, hl]
  · intro hb
    constructor
    · intro he
      cases hs : rawStartISOOf e with
      | none =>
          simp [resumeWithBookingData, hb, hs] at he
      | some s =>
          cases hls : st.lastBookingStartISO with
          | none => simp [resumeWithBookingData, hb, hs, hls] at he
          | some ls =>
              by_cases h₁ : |dateMs s - dateMs ls| ≤ 300000
              · by_cases h₂ : now - st.bookingAnnouncedTs < 10000
                · exact ⟨s, ls, rfl, rfl, h₁, h₂⟩
                · simp [resumeWithBookingData, hb, hs, hls, h₁, h₂] at he
              · simp [resumeWithBookingData, hb, hs, hls, h₁] at he
    · rintro ⟨s, ls, hs, hls, h₁, h₂⟩
      simp [resumeWithBookingData, hb, hs, hls, h₁, h₂]

/-- Witness for C4: a replayed `bookingId="abc123"` is dropped, and an
id-less event inside both windows is dropped. -/
theorem booking_dedupe_c4_witness :
    resumeWithBookingData (fun _ => 0) (fun _ => "") 0
        { lastBookingIdProcessed := some "abc123" }
        { bookingId := some "abc123", startTime := some "2025-01-07T15:00:00Z" }
        (.stream [])
      = ([], { lastBookingIdProcessed := some "abc123" })
    ∧ resumeWithBookingData (fun _ => 0) (fun _ => "") 0
        { lastBookingStartISO := some "2025-01-07T15:00:00Z", bookingAnnouncedTs := 0 }
        { startTime := some "2025-01-07T15:02:00Z" }
        (.stream [])
      = ([], { lastBookingStartISO := some "2025-01-07T15:00:00Z", bookingAnnouncedTs := 0 }) :=
  ⟨(booking_dedupe_c4 (fun _ => 0) (fun _ => "") 0
      { lastBookingIdProcessed := some "abc123" }
      { bookingId := some "abc123", startTime := some "2025-01-07T15:00:00Z" }
      (.stream [])).1 "abc123" rfl rfl,
   ((booking_dedupe_c4 (fun _ => 0) (fun _ => "") 0
      { lastBookingStartISO := some "2025-01-07T15:00:00Z", bookingAnnouncedTs := 0 }
      { startTime := some "2025-01-07T15:02:00Z" }
      (.stream [])).2 rfl).mpr
     ⟨"2025-01-07T15:02:00Z", "2025-01-07T15:00:00Z", rfl, rfl, by decide, by decide⟩⟩

/-! ## Claim C3 -/

lemma textTurn_finalCount (st : Session) (u : String) (chunks : List Chunk)
    (hchat : st.geminiChatStarted = true) (hpause : st.isPausedForUserAction = false)
    (hnofc : (consumeStream {} chunks).pendingFunctionCall = none)
    (htext : ¬(jsTrim (consumeStream {} chunks).fullText = "")) :
    finalCount (getGeminiResponse st u (.stream chunks)).1 = 1 := by
  rw [getGeminiResponse_textTurn st u chunks hchat hpause hnofc htext]
  simp [finalCount, List.countP_append, List.countP_cons, isFinalEvt,
    apply_ite (List.countP isFinalEvt)]
  intro a ha
  obtain ⟨d, rfl⟩ := mem_streamDeltaEvents _ a ha
  rfl

/-- C3 amended: when the webhook resume arrives first, a subsequent
client-reported completion is ignored entirely (the webhook path has
priority), exactly one narrated confirmation is produced and the pause
flag ends false, and a repeated webhook resume for the same booking
identifier is a safe no-op.  (The converse order is NOT convergent — see
the counterexample — because the client fallback path records nothing for
the webhook dedupe.) -/
theorem resume_race_c3_amended
    (dateMs : String → Int) (fmt fmt₂ : String → String) (now now₃ : Int)
    (st : Session) (e : EventDetails) (msg : UserActionMsg)
    (chunks₁ : List Chunk) (o₂ o₃ : ModelOutcome) (b : String)
    (hpause : st.isPausedForUserAction = true)
    (hchat : st.geminiChatStarted = true)
    (hb : bookingIdOf e = some b)
    (hfresh : st.lastBookingIdProcessed = none)
    (hnofc : (consumeStream {} chunks₁).pendingFunctionCall = none)
    (htext : ¬(jsTrim (consumeStream {} chunks₁).fullText = "")) :
    finalCount (resumeWithBookingData dateMs fmt now st e (.stream chunks₁)).1 = 1
    ∧ (resumeWithBookingData dateMs fmt now st e (.stream chunks₁)).2.isPausedForUserAction
        = false
    ∧ userActionCompleted fmt₂
        (resumeWithBookingData dateMs fmt now st e (.stream chunks₁)).2 msg o₂
        = ([], (resumeWithBookingData dateMs fmt now st e (.stream chunks₁)).2)
    ∧ resumeWithBookingData dateMs fmt now₃
        (resumeWithBookingData dateMs fmt now st e (.stream chunks₁)).2 e o₃
        = ([], (resumeWithBookingData dateMs fmt now st e (.stream chunks₁)).2) := by
  have hp₁ : ({ st with isPausedForUserAction := false } : Session).isPausedForUserAction
      = false := rfl
  have hfg := getGeminiResponse_textTurn { st with isPausedForUserAction := false }
    "Ok, entendido. Procede a confirmar la cita al usuario." chunks₁ hchat hp₁ hnofc htext
  have hfc := textTurn_finalCount { st with isPausedForUserAction := false }
    "Ok, entendido. Procede a confirmar la cita al usuario." chunks₁ hchat hp₁ hnofc htext
  simp only [hfresh] at hfg hfc
  have h₁ : finalCount (resumeWithBookingData dateMs fmt now st e (.stream chunks₁)).1 = 1 := by
    simp [resumeWithBookingData, hb, hfresh, finalCount, List.countP_append,
      List.countP_cons, isFinalEvt, apply_ite (List.countP isFinalEvt)]
    simpa [finalCount] using hfc
  have h₂ : (resumeWithBookingData dateMs fmt now st e (.stream chunks₁)).2.isPausedForUserAction
      = false := by
    simp [resumeWithBookingData, hb, hfresh, hfg]
  have h₄ : (resumeWithBookingData dateMs fmt now st e (.stream chunks₁)).2.lastBookingIdProcessed
      = some b := by
    simp [resumeWithBookingData, hb, hfresh, hfg]
  refine ⟨h₁, h₂, ?_, ?_⟩
  · simp [userActionCompleted, h₂]
  · set ST := (resumeWithBookingData dateMs fmt now st e (.stream chunks₁)).2 with hST
    simp [resumeWithBookingData, hb, h₄]

/-- Concrete paused session for the C3 scenario. -/
def c3State : Session := { isPausedForUserAction := true }

/-- Concrete client completion report of the C3 scenario. -/
def c3Msg : UserActionMsg :=
  { appointmentData := some { startTime := some "2025-01-07T15:00:00Z" } }

/-- Concrete webhook booking event of the C3 scenario. -/
def c3Event : EventDetails :=
  { bookingId := some "abc123", startTime := some "2025-01-07T15:00:00Z" }

/-- Concrete narration stream of the C3 scenario. -/
def c3Stream : List Chunk := [[some [{ text := some "Cita confirmada." }]]]

/-- Concrete locale formatter of the C3 scenario. -/
def c3Fmt : String → String := fun _ => "7 de enero"

/-- Concrete ISO-to-milliseconds parser of the C3 scenario. -/
def c3DateMs : String → Int := fun _ => 0

/-- Counterexample to C3 as stated: the same booking delivered in the
other order — client-reported completion first (narrates once), webhook
second within the dedupe window — produces a second narrated
confirmation, because the client fallback path records neither the
booking id nor the announcement time for the webhook dedupe.  Two
narrations occur, not exactly one. -/
theorem resume_race_c3_counterexample :
    finalCount ((userActionCompleted c3Fmt c3State c3Msg (.stream c3Stream)).1
        ++ (resumeWithBookingData c3DateMs c3Fmt 5000
              (userActionCompleted c3Fmt c3State c3Msg (.stream c3Stream)).2
              c3Event (.stream c3Stream)).1) = 2
    ∧ (2 : Nat) ≠ 1
    ∧ (resumeWithBookingData c3DateMs c3Fmt 5000
        (userActionCompleted c3Fmt c3State c3Msg (.stream c3Stream)).2
        c3Event (.stream c3Stream)).2.isPausedForUserAction = false := by
  refine ⟨by decide, by decide, by decide⟩

/-- Witness for the amended C3 on the concrete webhook-first scenario. -/
theorem resume_race_c3_amended_witness :
    finalCount (resumeWithBookingData c3DateMs c3Fmt 5000 c3State c3Event (.stream c3Stream)).1 = 1
    ∧ (resumeWithBookingData c3DateMs c3Fmt 5000 c3State c3Event (.stream c3Stream)).2.isPausedForUserAction
        = false
    ∧ userActionCompleted c3Fmt
        (resumeWithBookingData c3DateMs c3Fmt 5000 c3State c3Event (.stream c3Stream)).2 c3Msg
        (.stream c3Stream)
        = ([], (resumeWithBookingData c3DateMs c3Fmt 5000 c3State c3Event (.stream c3Stream)).2)
    ∧ resumeWithBookingData c3DateMs c3Fmt 9000
        (resumeWithBookingData c3DateMs c3Fmt 5000 c3State c3Event (.stream c3Stream)).2 c3Event
        (.stream c3Stream)
        = ([], (resumeWithBookingData c3DateMs c3Fmt 5000 c3State c3Event (.stream c3Stream)).2) :=
  resume_race_c3_amended c3DateMs c3Fmt c3Fmt 5000 9000 c3State c3Event c3Msg
    c3Stream (.stream c3Stream) (.stream c3Stream) "abc123"
    rfl rfl rfl rfl rfl (by decide)

/-! ## Claim C8 -/

lemma textTurn_superviseCount (st : Session) (u : String) (chunks : List Chunk)
    (hchat : st.geminiChatStarted = true) (hpause : st.isPausedForUserAction = false)
    (hnofc : (consumeStream {} chunks).pendingFunctionCall = none)
    (htext : ¬(jsTrim (consumeStream {} chunks).fullText = "")) :
    superviseCount (getGeminiResponse st u (.stream chunks)).1
      = (if st.isSupervised = true ∧ ¬(st.isCorrecting = true) then 1 else 0) := by
  rw [getGeminiResponse_textTurn st u chunks hchat hpause hnofc htext]
  have hd := streamDeltaEvents_supervise_free (streamParts chunks)
  simp only [superviseCount] at hd
  simp [superviseCount, List.countP_append, List.countP_cons, isSuperviseEvt,
    apply_ite (List.countP isSuperviseEvt), hd]

/-- C8: injecting a supervisor correction sets the mid-correction flag,
so the corrective assistant turn commits without an outbound supervision
report and clears the flag; the next normal committed assistant turn does
trigger exactly one supervision report. -/
theorem correction_suppresses_report_c8 (st : Session) (cmsg u₂ cid : String)
    (chunks₁ chunks₂ : List Chunk)
    (hcid : st.conversationId = some cid)
    (hchat : st.geminiChatStarted = true)
    (hpause : st.isPausedForUserAction = false)
    (hsup : st.isSupervised = true)
    (hnofc₁ : (consumeStream {} chunks₁).pendingFunctionCall = none)
    (htext₁ : ¬(jsTrim (consumeStream {} chunks₁).fullText = ""))
    (hnofc₂ : (consumeStream {} chunks₂).pendingFunctionCall = none)
    (htext₂ : ¬(jsTrim (consumeStream {} chunks₂).fullText = "")) :
    superviseCount (applyCorrection st cmsg (.stream chunks₁)).1 = 0
    ∧ (applyCorrection st cmsg (.stream chunks₁)).2.isCorrecting = false
    ∧ superviseCount
        (getGeminiResponse (applyCorrection st cmsg (.stream chunks₁)).2 u₂
          (.stream chunks₂)).1 = 1 := by
  have happ : applyCorrection st cmsg (.stream chunks₁)
      = (SessionEvent.persistTxnAppend ("\nSUPERVISOR: " ++ cmsg)
           :: SessionEvent.modelMessage (correctionPrompt cmsg)
           :: (getGeminiResponse
                { st with
                    fullConversationTranscript :=
                      st.fullConversationTranscript ++ ("\nSUPERVISOR: " ++ cmsg)
                    isCorrecting := true } "" (.stream chunks₁)).1,
         (getGeminiResponse
            { st with
                fullConversationTranscript :=
                  st.fullConversationTranscript ++ ("\nSUPERVISOR: " ++ cmsg)
                isCorrecting := true } "" (.stream chunks₁)).2) := by
    simp [applyCorrection, hcid]
  have hfg := getGeminiResponse_textTurn
    { st with
        fullConversationTranscript := st.fullConversationTranscript ++ ("\nSUPERVISOR: " ++ cmsg)
        isCorrecting := true } "" chunks₁ hchat hpause hnofc₁ htext₁
  have hsc : superviseCount
      (getGeminiResponse
        { st with
            fullConversationTranscript :=
              st.fullConversationTranscript ++ ("\nSUPERVISOR: " ++ cmsg)
            isCorrecting := true } "" (.stream chunks₁)).1 = 0 := by
    rw [textTurn_superviseCount
      { st with
          fullConversationTranscript :=
            st.fullConversationTranscript ++ ("\nSUPERVISOR: " ++ cmsg)
          isCorrecting := true } "" chunks₁ hchat hpause hnofc₁ htext₁]
    simp
  have hA : (getGeminiResponse
      { st with
          fullConversationTranscript :=
            st.fullConversationTranscript ++ ("\nSUPERVISOR: " ++ cmsg)
          isCorrecting := true } "" (.stream chunks₁)).2.geminiChatStarted = true := by
    rw [hfg]; exact hchat
  have hB : (getGeminiResponse
      { st with
          fullConversationTranscript :=
            st.fullConversationTranscript ++ ("\nSUPERVISOR: " ++ cmsg)
          isCorrecting := true } "" (.stream chunks₁)).2.isPausedForUserAction = false := by
    rw [hfg]; exact hpause
  have hC : (getGeminiResponse
      { st with
          fullConversationTranscript :=
            st.fullConversationTranscript ++ ("\nSUPERVISOR: " ++ cmsg)
          isCorrecting := true } "" (.stream chunks₁)).2.isCorrecting = false := by
    rw [hfg]
  have hD : (getGeminiResponse
      { st with
          fullConversationTranscript :=
            st.fullConversationTranscript ++ ("\nSUPERVISOR: " ++ cmsg)
          isCorrecting := true } "" (.stream chunks₁)).2.isSupervised = true := by
    rw [hfg]; exact hsup
  refine ⟨?_, ?_, ?_⟩
  · rw [happ]
    simp [superviseCount, List.countP_cons, isSuperviseEvt]
    simp only [superviseCount] at hsc
    simpa using hsc
  · rw [happ]
    exact hC
  · rw [happ]
    rw [textTurn_superviseCount _ u₂ chunks₂ hA hB hnofc₂ htext₂]
    simp [hC, hD]

/-- Concrete supervised session for the C8 witness. -/
def c8State : Session :=
  { conversationId := some "c1", conversationCreated := true, isSupervised := true }

/-- Concrete corrective-turn stream for the C8 witness. -/
def c8Stream₁ : List Chunk := [[some [{ text := some "Perdón, lo corrijo." }]]]

/-- Concrete follow-up-turn stream for the C8 witness. -/
def c8Stream₂ : List Chunk := [[some [{ text := some "Claro, seguimos." }]]]

/-- Witness for C8 at a concrete supervised session. -/
theorem correction_suppresses_report_c8_witness :
    superviseCount (applyCorrection c8State "usa el precio nuevo" (.stream c8Stream₁)).1 = 0
    ∧ (applyCorrection c8State "usa el precio nuevo" (.stream c8Stream₁)).2.isCorrecting = false
    ∧ superviseCount
        (getGeminiResponse (applyCorrection c8State "usa el precio nuevo" (.stream c8Stream₁)).2
          "gracias" (.stream c8Stream₂)).1 = 1 :=
  correction_suppresses_report_c8 c8State "usa el precio nuevo" "gracias" "c1"
    c8Stream₁ c8Stream₂ rfl rfl rfl rfl rfl (by decide) rfl (by decide)

/-! ## Claim C9 -/

lemma ctEq_eq_true_iff (a b : String) : ctEq a b = true ↔ a = b := by
  simp only [ctEq, Bool.and_eq_true, beq_iff_eq]
  exact ⟨fun h => h.2, fun h => ⟨by rw [h], h⟩⟩

/-- C9 amended: the booking webhook responds 400 without a signature
header, 401 when the length-guarded constant-time comparison — which
accepts exactly the matching digest — fails against the `sha256=`-stripped
header, 500 when the body is not valid JSON, 200 for events other than
`BOOKING_CREATED`, 400 when no conversation identifier is found, 200 via a
live-session resume or after persisting the pending event, and 500 when
that persistence write fails. -/
theorem webhook_statuses_c9_amended (hmacHex : String → String → String)
    (parse : String → Option CalPayload) (hasConn : String → Bool)
    (resumeThrows persistFails : Bool) (req : CalWebhookReq) :
    (req.sigHeader = none →
       bookingWebhookStatus hmacHex parse hasConn resumeThrows persistFails req = 400)
    ∧ (∀ sig, req.sigHeader = some sig →
        hmacHex calcomWebhookSecret req.body ≠ replaceFirst sig "sha256=" →
        bookingWebhookStatus hmacHex parse hasConn resumeThrows persistFails req = 401)
    ∧ (∀ sig, req.sigHeader = some sig →
        hmacHex calcomWebhookSecret req.body = replaceFirst sig "sha256=" →
        (parse req.body = none →
           bookingWebhookStatus hmacHex parse hasConn resumeThrows persistFails req = 500)
        ∧ (∀ p, parse req.body = some p →
            (p.triggerEvent ≠ "BOOKING_CREATED" →
               bookingWebhookStatus hmacHex parse hasConn resumeThrows persistFails req = 200)
            ∧ (p.triggerEvent = "BOOKING_CREATED" →
                (extractConvoId p = none →
                   bookingWebhookStatus hmacHex parse hasConn resumeThrows persistFails req = 400)
                ∧ (∀ cid, extractConvoId p = some cid →
                    (hasConn cid = true → resumeThrows = false →
                       bookingWebhookStatus hmacHex parse hasConn resumeThrows persistFails req
                         = 200)
                    ∧ (¬(hasConn cid = true ∧ resumeThrows = false) →
                        (persistFails = true →
                           bookingWebhookStatus hmacHex parse hasConn resumeThrows persistFails req
                             = 500)
                        ∧ (persistFails = false →
                           bookingWebhookStatus hmacHex parse hasConn resumeThrows persistFails req
                             = 200)))))) := by
  refine ⟨?_, ?_, ?_⟩
  · intro h
    simp [bookingWebhookStatus, h]
  · intro sig hs hne
    have hct : ctEq (hmacHex calcomWebhookSecret req.body) (replaceFirst sig "sha256=") = false := by
      cases hc : ctEq (hmacHex calcomWebhookSecret req.body) (replaceFirst sig "sha256=") with
      | false => rfl
      | true => exact absurd ((ctEq_eq_true_iff _ _).mp hc) hne
    simp [bookingWebhookStatus, hs, hct]
  · intro sig hs heq
    have hct : ctEq (hmacHex calcomWebhookSecret req.body) (replaceFirst sig "sha256=") = true :=
      (ctEq_eq_true_iff _ _).mpr heq
    refine ⟨?_, ?_⟩
    · intro hp
      simp [bookingWebhookStatus, hs, hct, hp]
    · intro p hp
      refine ⟨?_, ?_⟩
      · intro htr
        simp [bookingWebhookStatus, hs, hct, hp, htr]
      · intro htr
        refine ⟨?_, ?_⟩
        · intro hcv
          simp [bookingWebhookStatus, hs, hct, hp, htr, hcv]
        · intro cid hcv
          refine ⟨?_, ?_⟩
          · intro h₁ h₂
            simp [bookingWebhookStatus, hs, hct, hp, htr, hcv, h₁, h₂]
          · intro h₁₂
            refine ⟨?_, ?_⟩ <;> intro hpf <;>
              simp [bookingWebhookStatus, hs, hct, hp, htr, hcv, h₁₂, hpf]

/-- Concrete request of the C9 counterexample: a correctly signed request
whose body is not valid JSON. -/
def c9Req : CalWebhookReq := { sigHeader := some "sha256=aa", body := "not json" }

/-- Counterexample to C9 as stated: with a valid signature over a body
that is not JSON (so the conversation identifier is certainly not found),
the handler answers 500 — `JSON.parse` throws into the outer catch —
rather than one of the claimed statuses 400/401/200. -/
theorem webhook_status_c9_counterexample :
    bookingWebhookStatus (fun _ _ => "aa") (fun _ => none) (fun _ => false) false false c9Req
      = 500
    ∧ (500 : Nat) ≠ 400 ∧ (500 : Nat) ≠ 401 ∧ (500 : Nat) ≠ 200 := by
  refine ⟨by decide, by decide, by decide, by decide⟩

/-- Concrete parsed payload of the C9 witness. -/
def c9Payload : CalPayload := { triggerEvent := "BOOKING_CREATED", metaConvoId := some "c1" }

/-- Witness for the amended C9: a mismatched signature gets 401, and a
valid signature with a live registry entry gets 200. -/
theorem webhook_statuses_c9_amended_witness :
    bookingWebhookStatus (fun _ _ => "aa") (fun _ => none) (fun _ => false) false false
        { sigHeader := some "sha256=bb", body := "x" } = 401
    ∧ bookingWebhookStatus (fun _ _ => "aa") (fun _ => some c9Payload)
        (fun _ => true) false false { sigHeader := some "sha256=aa", body := "x" } = 200 :=
  ⟨(webhook_statuses_c9_amended (fun _ _ => "aa") (fun _ => none) (fun _ => false) false false
      { sigHeader := some "sha256=bb", body := "x" }).2.1 "sha256=bb" rfl (by decide),
   (((((webhook_statuses_c9_amended (fun _ _ => "aa") (fun _ => some c9Payload)
          (fun _ => true) false false
          { sigHeader := some "sha256=aa", body := "x" }).2.2 "sha256=aa" rfl
        (by decide)).2 c9Payload rfl).2 rfl).2 "c1" rfl).1 rfl rfl⟩

/-! ## Claim C10 -/

/-- C10: a fresh final voice transcript and a typed text message received
while the session is paused are still forwarded (voice transcript event),
appended to the cumulative transcript and persisted, before the Dialogue
Engine silently drops them: the pause discards only the model call, not
the transcript record of the input. -/
theorem paused_input_persisted_c10 (st : Session) (t u₂ : String)
    (o₁ o₂ : ModelOutcome) (cid : String)
    (hpause : st.isPausedForUserAction = true)
    (ht : t ≠ "")
    (hnorm : jsToLower (jsTrim t) ≠ "")
    (hecho : jsToLower (jsTrim t) ≠ st.lastFinalNorm)
    (hcid : st.conversationId = some cid) (hcc : st.conversationCreated = true) :
    onSpeechData st { transcript := t, isFinal := true } o₁ =
      ([SessionEvent.sendClient (.transcriptMsg t true),
        SessionEvent.persistTranscript
          (st.fullConversationTranscript ++ "\nUSUARIO (por voz): " ++ jsToLower (jsTrim t))],
       { st with
           lastFinalNorm := jsToLower (jsTrim t)
           currentUserTranscript := jsToLower (jsTrim t)
           currentUserInputSource := "voice"
           fullConversationTranscript :=
             st.fullConversationTranscript ++ "\nUSUARIO (por voz): " ++ jsToLower (jsTrim t) })
    ∧ modelCallCount (onSpeechData st { transcript := t, isFinal := true } o₁).1 = 0
    ∧ handleTextMessage st u₂ o₂ =
        ([SessionEvent.persistTranscript
            (st.fullConversationTranscript ++ "\nUSUARIO (con texto): " ++ u₂)],
         { st with
             currentUserTranscript := u₂
             currentUserInputSource := "text"
             fullConversationTranscript :=
               st.fullConversationTranscript ++ "\nUSUARIO (con texto): " ++ u₂ })
    ∧ modelCallCount (handleTextMessage st u₂ o₂).1 = 0 := by
  have hdrop₁ := getGeminiResponse_of_paused
    { st with
        lastFinalNorm := jsToLower (jsTrim t)
        currentUserTranscript := jsToLower (jsTrim t)
        currentUserInputSource := "voice"
        fullConversationTranscript :=
          st.fullConversationTranscript ++ "\nUSUARIO (por voz): " ++ jsToLower (jsTrim t) }
    (jsToLower (jsTrim t)) o₁ hpause
  have hdrop₂ := getGeminiResponse_of_paused
    { st with
        currentUserTranscript := u₂
        currentUserInputSource := "text"
        fullConversationTranscript :=
          st.fullConversationTranscript ++ "\nUSUARIO (con texto): " ++ u₂ }
    ("(Mensaje Escrito) " ++ u₂) o₂ hpause
  simp only [hcid, hcc] at hdrop₁ hdrop₂
  have h₁ : onSpeechData st { transcript := t, isFinal := true } o₁ =
      ([SessionEvent.sendClient (.transcriptMsg t true),
        SessionEvent.persistTranscript
          (st.fullConversationTranscript ++ "\nUSUARIO (por voz): " ++ jsToLower (jsTrim t))],
       { st with
           lastFinalNorm := jsToLower (jsTrim t)
           currentUserTranscript := jsToLower (jsTrim t)
           currentUserInputSource := "voice"
           fullConversationTranscript :=
             st.fullConversationTranscript ++ "\nUSUARIO (por voz): " ++ jsToLower (jsTrim t) }) := by
    simp [onSpeechData, ht, hnorm, hecho, hcid, hcc, hdrop₁]
  have h₃ : handleTextMessage st u₂ o₂ =
      ([SessionEvent.persistTranscript
          (st.fullConversationTranscript ++ "\nUSUARIO (con texto): " ++ u₂)],
       { st with
           currentUserTranscript := u₂
           currentUserInputSource := "text"
           fullConversationTranscript :=
             st.fullConversationTranscript ++ "\nUSUARIO (con texto): " ++ u₂ }) := by
    simp [handleTextMessage, hcid, hcc, hdrop₂]
  exact ⟨h₁, by rw [h₁]; rfl, h₃, by rw [h₃]; rfl⟩

/-- Concrete paused session of the C10 witness. -/
def c10State : Session :=
  { isPausedForUserAction := true, conversationId := some "c1", conversationCreated := true }

/-- Witness for C10 at a concrete paused session with a fresh voice final
and a typed message. -/
theorem paused_input_persisted_c10_witness :
    onSpeechData c10State { transcript := "Hola", isFinal := true } (.stream []) =
      ([SessionEvent.sendClient (.transcriptMsg "Hola" true),
        SessionEvent.persistTranscript
          (c10State.fullConversationTranscript ++ "\nUSUARIO (por voz): "
            ++ jsToLower (jsTrim "Hola"))],
       { c10State with
           lastFinalNorm := jsToLower (jsTrim "Hola")
           currentUserTranscript := jsToLower (jsTrim "Hola")
           currentUserInputSource := "voice"
           fullConversationTranscript :=
             c10State.fullConversationTranscript ++ "\nUSUARIO (por voz): "
               ++ jsToLower (jsTrim "Hola") })
    ∧ modelCallCount
        (onSpeechData c10State { transcript := "Hola", isFinal := true } (.stream [])).1 = 0
    ∧ handleTextMessage c10State "Quiero una cita" (.stream []) =
        ([SessionEvent.persistTranscript
            (c10State.fullConversationTranscript ++ "\nUSUARIO (con texto): "
              ++ "Quiero una cita")],
         { c10State with
             currentUserTranscript := "Quiero una cita"
             currentUserInputSource := "text"
             fullConversationTranscript :=
               c10State.fullConversationTranscript ++ "\nUSUARIO (con texto): "
                 ++ "Quiero una cita" })
    ∧ modelCallCount (handleTextMessage c10State "Quiero una cita" (.stream [])).1 = 0 :=
  paused_input_persisted_c10 c10State "Hola" "Quiero una cita" (.stream []) (.stream []) "c1"
    rfl (by decide) (by decide) (by decide) rfl rfl

end HumanBG
